import Mathlib

/-!
Shallow embedding of the Agentic Discord bot's function-call resolution
pipeline (TypeScript sources under `src/`), together with theorems checking
the natural-language specification against the code.

Conventions:
* JS strings are Lean `String`s; `toLowerCase` is `String.toLower`,
  `includes` is `jsIncludes` (substring containment), `trim` is `String.trim`.
* JS numbers are `Int` (or `Nat` where the source value is a count);
  a `parseInt` result of `NaN` is modelled as `Option.none`.
* Async platform calls are modelled by explicit oracles passed as arguments;
  a `try { ... } catch` around a platform mutation is modelled by a `Bool`
  or `Except`-valued oracle describing whether the mutation succeeds.
* The regular expressions of the source are transcribed as character-list
  matchers; each matcher's doc comment quotes the regex it embeds.  All the
  regexes involved are free of genuine backtracking (every quantified class
  is disjoint from what follows it), so maximal-munch scanning is exact.
-/

namespace Agentic

/-- The apostrophe character (several source strings contain one). -/
def apos : String := String.mk [Char.ofNat 39]

/-- JS `hay.includes(needle)`: substring containment on the char lists. -/
def jsIncludes (hay needle : String) : Bool :=
  decide (needle.toList <:+: hay.toList)

/-- JS `/^\d+$/.test(s)`: `s` is non-empty and all characters are digits. -/
def isAllDigits (s : String) : Bool :=
  !s.toList.isEmpty && s.toList.all (·.isDigit)

/-- JS `\w` character class: ASCII letters, digits and underscore. -/
def isWordChar (c : Char) : Bool :=
  c.isAlphanum || c = '_'

/-- JS `toLowerCase`, character-wise (all the texts concerned are ASCII). -/
def toLowerStr (s : String) : String :=
  String.mk (s.toList.map Char.toLower)

/-- Trim whitespace from both ends of a char list. -/
def trimChars (cs : List Char) : List Char :=
  ((cs.dropWhile Char.isWhitespace).reverse.dropWhile Char.isWhitespace).reverse

/-- JS `trim`. -/
def jsTrim (s : String) : String :=
  String.mk (trimChars s.toList)

/-- Splitting worker for `jsSplitComma`. -/
def splitCommaAux : List Char → List Char → List String
  | [], acc => [String.mk acc.reverse]
  | c :: cs, acc =>
    if c = ',' then String.mk acc.reverse :: splitCommaAux cs []
    else splitCommaAux cs (c :: acc)

/-- JS `s.split(",")`; on the empty string this is `[""]`. -/
def jsSplitComma (s : String) : List String :=
  splitCommaAux s.toList []

/-- Strip a literal prefix (case-sensitively); `none` when it is absent. -/
def stripLit : List Char → List Char → Option (List Char)
  | [], cs => some cs
  | _ :: _, [] => none
  | l :: ls, c :: cs => if c = l then stripLit ls cs else none

/-- Strip a literal prefix case-insensitively (for `/i` regexes). -/
def stripLitCI : List Char → List Char → Option (List Char)
  | [], cs => some cs
  | _ :: _, [] => none
  | l :: ls, c :: cs => if c.toLower = l.toLower then stripLitCI ls cs else none

/-- `\s+`: require at least one whitespace character, consume the whole run. -/
def dropWhitespace1 (cs : List Char) : Option (List Char) :=
  match cs with
  | [] => none
  | c :: rest =>
    if c.isWhitespace then some (rest.dropWhile Char.isWhitespace) else none

/-- Numeric value of a digit run (the JS semantics of `parseInt` on digits). -/
def digitsToNat (ds : List Char) : Nat :=
  ds.foldl (fun n c => 10 * n + (c.toNat - '0'.toNat)) 0

/-- `(\d+)`: require a leading digit, return the maximal digit run and rest. -/
def takeDigits1 (cs : List Char) : Option (List Char × List Char) :=
  match cs with
  | [] => none
  | c :: _ =>
    if c.isDigit then some (cs.takeWhile Char.isDigit, cs.dropWhile Char.isDigit)
    else none

/-- JS `parseInt` applied to a possibly-absent string argument: optional
whitespace, optional sign, then a non-empty digit prefix; anything else
(including an absent argument) is `NaN`, modelled as `none`. -/
def parseIntJS (s? : Option String) : Option Int :=
  match s? with
  | none => none
  | some s =>
    let cs := s.toList.dropWhile Char.isWhitespace
    let signed : Int × List Char :=
      match cs with
      | '-' :: r => (-1, r)
      | '+' :: r => (1, r)
      | r => (1, r)
    let ds := signed.2.takeWhile Char.isDigit
    if ds.isEmpty then none else some (signed.1 * (digitsToNat ds : Int))

/-- JS `v || dflt` on an optional string argument: `undefined` and the empty
string are falsy, anything else is used as-is. -/
def jsOr (v? : Option String) (dflt : String) : String :=
  match v? with
  | some v => if v = "" then dflt else v
  | none => dflt

/-- Association-list read; JS `args[key]` yielding `undefined` is `none`. -/
def lookupArg (args : List (String × String)) (k : String) : Option String :=
  (args.find? (fun p => p.1 == k)).map (fun p => p.2)

/-- JS object-key assignment `args[key] = value`: replace the first (unique)
binding in place, or append a new one. -/
def setArg : List (String × String) → String → String → List (String × String)
  | [], k, v => [(k, v)]
  | p :: ps, k, v => if p.1 == k then (k, v) :: ps else p :: setArg ps k v

/-- Ban clamp from `ModerationService.banUser`
(`const days = Math.max(0, Math.min(7, deleteMessageDays))`). -/
def banClampDays (deleteMessageDays : Int) : Int :=
  max 0 (min 7 deleteMessageDays)

/-- `deleteMessageSeconds: days * 86400` from `ModerationService.banUser`. -/
def banDeleteSeconds (deleteMessageDays : Int) : Int :=
  banClampDays deleteMessageDays * 86400

/-- A guild member as the resolution code sees it: an id, the account
username (`m.user.username`), and an optional guild nickname. -/
structure GuildMember where
  id : String
  username : String
  nickname : Option String
deriving Repr, DecidableEq

/-- The `guild.members.cache.find` callback shared by
`ModerationService.resolveUser` and `FunctionExecutor.handleFunctionCall`:
exact username, exact nickname, partial username, or partial nickname match
against the lowercased token. -/
def memberMatches (lowerUsername : String) (m : GuildMember) : Bool :=
  (toLowerStr m.username == lowerUsername) ||
  (match m.nickname with
   | some n => toLowerStr n == lowerUsername
   | none => false) ||
  jsIncludes (toLowerStr m.username) lowerUsername ||
  (match m.nickname with
   | some n => jsIncludes (toLowerStr n) lowerUsername
   | none => false)

/-- Formalisation of the SPEC's wording of the match criterion (§4.4):
a directory entry matches iff its display-name or nickname equals the token
or contains it as a substring, case-insensitively.  (Equality implies
containment, so the two clauses per name collapse to containment.) -/
def specNameMatches (token : String) (m : GuildMember) : Bool :=
  jsIncludes (toLowerStr m.username) (toLowerStr token) ||
  (match m.nickname with
   | some n => jsIncludes (toLowerStr n) (toLowerStr token)
   | none => false)

/-- `userIdOrMention.replace(/[<@!>]/g, '')` from
`ModerationService.resolveUser`: removes every occurrence of the mention
wrapper characters. -/
def stripMentionChars (s : String) : String :=
  String.mk (s.toList.filter (fun c => !(c = '<' || c = '@' || c = '!' || c = '>')))

/-- `ModerationService.resolveUser` (src/unnamed/part_002 lines 34-70):
strip mention wrappers; an all-digit remainder is fetched by id (the fetch
oracle's `none` is the caught throw); otherwise the member cache — refreshed
to `allMembers` when empty — is searched with `memberMatches`, first match
in iteration order winning. -/
def resolveUser (cache allMembers : List GuildMember)
    (fetchById : String → Option GuildMember) (userIdOrMention : String) :
    Option GuildMember :=
  let userId := stripMentionChars userIdOrMention
  if isAllDigits userId then
    fetchById userId
  else
    let lowerUsername := toLowerStr userId
    let members := if cache.isEmpty then allMembers else cache
    members.find? (memberMatches lowerUsername)

end Agentic

namespace Agentic.FilterManager

/-- `private readonly WARNING_THRESHOLD = 3`. -/
def WARNING_THRESHOLD : Nat := 3

/-- `private readonly WARNING_RESET_TIME = 24 * 60 * 60 * 1000`. -/
def WARNING_RESET_TIME : Nat := 24 * 60 * 60 * 1000

/-- `private readonly TIMEOUT_DURATION = 10` (minutes). -/
def TIMEOUT_DURATION : Nat := 10

/-- One per-user warning record (`{count, lastWarning}`). -/
structure WarningEntry where
  count : Nat
  lastWarning : Nat
deriving Repr, DecidableEq

/-- Per-guild filter settings (`{enabled, warnings}`); the warnings object is
an association list keyed by user id, in JS object insertion order. -/
structure FilterSettings where
  enabled : Bool
  warnings : List (String × WarningEntry)
deriving Repr, DecidableEq

/-- JS object-key assignment `settings.warnings[userId] = entry`. -/
def setWarning : List (String × WarningEntry) → String → WarningEntry →
    List (String × WarningEntry)
  | [], uid, e => [(uid, e)]
  | p :: ps, uid, e => if p.1 == uid then (uid, e) :: ps else p :: setWarning ps uid e

/-- Read of `settings.warnings[userId]`. -/
def getWarning (ws : List (String × WarningEntry)) (uid : String) :
    Option WarningEntry :=
  (ws.find? (fun p => p.1 == uid)).map (fun p => p.2)

/-- The ambient outcomes of one `warnUser` call: the clock, whether the guild
lookup and the member fetch succeed, the member's username, and whether the
`member.timeout` mutation succeeds (`timeoutOk = false` is the caught throw). -/
structure WarnEnv where
  now : Nat
  guildFound : Bool
  memberFound : Bool
  memberName : String
  timeoutOk : Bool
deriving Repr

/-- Template of the ordinary warning reply. -/
def mkWarnMsg (username reason : String) (count : Nat) : String :=
  s!"Warning issued to {username}: {reason}. This is warning {count}/{WARNING_THRESHOLD}."

/-- Template of the escalation reply. -/
def mkEscalationMsg (username : String) : String :=
  s!"{username} has been timed out for {TIMEOUT_DURATION} minutes due to multiple warnings."

/-- Template of the reply when the escalation timeout mutation fails. -/
def mkTimeoutFailMsg (username : String) : String :=
  s!"Warning issued to {username}, but I couldn{apos}t apply timeout due to permissions."

/-- `FilterManager.warnUser` (src/src/services/filterManager.ts lines 71-113).
Returns the guild's settings after the call together with the reply string.
The settings argument is `none` when `this.settings` has no entry for the
guild.  Persistence (`saveSettings`) writes the returned settings. -/
def warnUser (settings? : Option FilterSettings) (userId reason : String)
    (env : WarnEnv) : Option FilterSettings × String :=
  match settings? with
  | none => (none, "Error: Server settings not found.")
  | some settings =>
    if !env.guildFound then (some settings, "Error: Server not found.")
    else if !env.memberFound then (some settings, "Error: User not found.")
    else
      -- initialize or update user warnings
      let entry0 : WarningEntry :=
        match getWarning settings.warnings userId with
        | some e => e
        | none => { count := 0, lastWarning := env.now }
      let timeSinceLastWarning := env.now - entry0.lastWarning
      -- reset warnings if enough time has passed
      let count1 := if WARNING_RESET_TIME ≤ timeSinceLastWarning then 0 else entry0.count
      let count2 := count1 + 1
      let saved : FilterSettings :=
        { settings with
          warnings := setWarning settings.warnings userId
            { count := count2, lastWarning := env.now } }
      -- if the user has reached the warning threshold, time them out
      if WARNING_THRESHOLD ≤ count2 then
        if env.timeoutOk then
          let resetSaved : FilterSettings :=
            { settings with
              warnings := setWarning settings.warnings userId
                { count := 0, lastWarning := env.now } }
          (some resetSaved, mkEscalationMsg env.memberName)
        else
          (some saved, mkTimeoutFailMsg env.memberName)
      else
        (some saved, mkWarnMsg env.memberName reason count2)

/-- A call environment in which guild and member lookups succeed. -/
def mkEnv (now : Nat) (memberName : String) (timeoutOk : Bool) : WarnEnv :=
  { now := now, guildFound := true, memberFound := true,
    memberName := memberName, timeoutOk := timeoutOk }

end Agentic.FilterManager

namespace Agentic

/-- The keyword list of `MessageHandler.detectModerationCommand`
(src/src/services/messageHandler.ts lines 179-201). -/
def moderationKeywords : List String :=
  ["kick", "ban", "mute", "timeout", "remove", "moderate", "moderation",
   "admin", "administrator",
   "create", "channel", "category", "delete", "message", "embed", "server",
   "manage", "setup", "purge"]

/-- `MessageHandler.detectModerationCommand` (the spec's
`IntentRouter.isAdministrativeIntent`): case-insensitive substring
containment of any keyword in the query. -/
def detectModerationCommand (query : String) : Bool :=
  moderationKeywords.any (fun keyword => jsIncludes (toLowerStr query) keyword)

end Agentic

namespace Agentic.AIService

/-- A tool call carried by the model response (`toolCall.function`): the
function name and the serialized argument payload. -/
structure ToolCallFn where
  name : String
  argumentsJson : String
deriving Repr, DecidableEq

/-- The message of one response choice: optional text content and the list
of proposed tool calls.  (The source's array-of-chunks content form is
joined to a string before use and is subsumed by the string case.) -/
structure RespMessage where
  content : Option String
  toolCalls : List ToolCallFn
deriving Repr, DecidableEq

/-- One choice of the chat completion response. -/
structure ChatChoice where
  message : RespMessage
deriving Repr, DecidableEq

/-- The chat completion response: a list of choices. -/
structure ChatCompletionResponse where
  choices : List ChatChoice
deriving Repr, DecidableEq

/-- A structured function call (`FunctionCall` of src/src/services/ai.ts). -/
structure FunctionCall where
  name : String
  arguments : List (String × String)
deriving Repr, DecidableEq

/-- `AIResponse` of src/src/services/ai.ts. -/
structure AIResponse where
  content : String
  functionCall : Option FunctionCall
deriving Repr, DecidableEq

/-- `AIService.processResponse` (src/unnamed/part_003 lines 108-136):
take the first choice, default the content, and take at most the FIRST tool
call; a JSON-parse failure of its arguments (the oracle's `none`) yields an
empty argument map rather than discarding the call. -/
def processResponse (parseJson : String → Option (List (String × String)))
    (chatResponse : ChatCompletionResponse) : AIResponse :=
  match chatResponse.choices.head? with
  | none => { content := "No response generated", functionCall := none }
  | some choice =>
    let message := choice.message
    let content := message.content.getD "No response generated"
    match message.toolCalls.head? with
    | some toolCall =>
      { content := content,
        functionCall := some
          { name := toolCall.name,
            arguments := (parseJson toolCall.argumentsJson).getD [] } }
    | none => { content := content, functionCall := none }

/-- `AIService.generateResponse` (src/unnamed/part_003 lines 66-101): the
whole model exchange sits in a `try`; any failure (the exchange oracle's
`.error`) is absorbed into the configured `errorMessages.aiFailure` reply. -/
def generateResponse (aiFailureMsg : String)
    (parseJson : String → Option (List (String × String)))
    (exchange : String → Except String ChatCompletionResponse)
    (query : String) : AIResponse :=
  match exchange query with
  | .ok chatResponse => processResponse parseJson chatResponse
  | .error _ => { content := aiFailureMsg, functionCall := none }

end Agentic.AIService

namespace Agentic.FunctionParser

open Agentic.AIService (FunctionCall)

/-- `/^delete\s+(\d+)\s+messages$/i` of `FunctionParser.parseFunctionCall`:
on success, the captured digit run (the amount). -/
def matchDeleteCommand (s : String) : Option String := do
  let cs ← stripLitCI "delete".toList s.toList
  let cs ← dropWhitespace1 cs
  let (ds, cs) ← takeDigits1 cs
  let cs ← dropWhitespace1 cs
  let cs ← stripLitCI "messages".toList cs
  if cs.isEmpty then some (String.mk ds) else none

/-- `/^(\w+)\s*\(\s*\{([^}]+)\}\s*\)$/` (object-form call syntax): on
success, the function name and the brace-delimited argument text. -/
def matchObjectForm (s : String) : Option (String × String) :=
  let cs := s.toList
  let name := cs.takeWhile isWordChar
  if name.isEmpty then none
  else
    match (cs.dropWhile isWordChar).dropWhile Char.isWhitespace with
    | '(' :: cs =>
      match cs.dropWhile Char.isWhitespace with
      | '{' :: cs =>
        let inner := cs.takeWhile (fun c => c ≠ '}')
        if inner.isEmpty then none
        else
          match cs.dropWhile (fun c => c ≠ '}') with
          | '}' :: cs =>
            match cs.dropWhile Char.isWhitespace with
            | [')'] => some (String.mk name, String.mk inner)
            | _ => none
          | _ => none
      | _ => none
    | _ => none

/-- `/^(\w+)\s*\(([^)]*)\)$/` (parenthesised call syntax): on success, the
function name and the parenthesised argument text (possibly empty). -/
def matchCallForm (s : String) : Option (String × String) :=
  let cs := s.toList
  let name := cs.takeWhile isWordChar
  if name.isEmpty then none
  else
    match (cs.dropWhile isWordChar).dropWhile Char.isWhitespace with
    | '(' :: cs =>
      let inner := cs.takeWhile (fun c => c ≠ ')')
      match cs.dropWhile (fun c => c ≠ ')') with
      | [')'] => some (String.mk name, String.mk inner)
      | _ => none
    | _ => none

/-- The unquoted alternative `(\S[^,]*)(?:,|$)` of the parameter regex,
tried at `rest` for the already-matched `key`; the captured value is
trimmed, as in `paramMatch[3]?.trim()`. -/
def matchParamUnquoted (key : List Char) (rest : List Char) :
    Option ((String × String) × List Char) :=
  match rest with
  | [] => none
  | c :: t =>
    if c.isWhitespace then none
    else
      let value := c :: t.takeWhile (fun x => x ≠ ',')
      match t.dropWhile (fun x => x ≠ ',') with
      | ',' :: v => some ((String.mk key, String.mk (trimChars value)), v)
      | [] => some ((String.mk key, String.mk (trimChars value)), [])
      | _ => none

/-- One attempt of the parameter regex
`/(\w+)\s*:\s*(?:"([^"]*)"|(\S[^,]*))(?:,|$)/` with the match anchored at
the head of `cs`; on success, the (key, value) pair and the text after the
match (the terminating comma, when present, is consumed). -/
def matchParamAt (cs : List Char) : Option ((String × String) × List Char) :=
  let key := cs.takeWhile isWordChar
  if key.isEmpty then none
  else
    match (cs.dropWhile isWordChar).dropWhile Char.isWhitespace with
    | ':' :: rest =>
      let rest := rest.dropWhile Char.isWhitespace
      match rest with
      | '"' :: t =>
        let content := t.takeWhile (fun x => x ≠ '"')
        match t.dropWhile (fun x => x ≠ '"') with
        | '"' :: (',' :: v) => some ((String.mk key, String.mk content), v)
        | ['"'] => some ((String.mk key, String.mk content), [])
        | _ => matchParamUnquoted key rest
      | _ => matchParamUnquoted key rest
    | _ => none

/-- The scan loop of `paramRegex.exec` under the `/g` flag: find successive
leftmost matches, resuming after each match.  The fuel argument bounds the
scan by the text length (each step consumes at least one character). -/
def execParams : Nat → List Char → List (String × String)
  | 0, _ => []
  | _ + 1, [] => []
  | fuel + 1, c :: rest =>
    match matchParamAt (c :: rest) with
    | some (kv, after) => kv :: execParams fuel after
    | none => execParams fuel rest

/-- All (key, value) pairs yielded by the parameter regex over `s`. -/
def parseParams (s : String) : List (String × String) :=
  execParams (s.toList.length + 1) s.toList

/-- `const args = {}` followed by `args[key] = value` per match. -/
def foldParams (params : List (String × String)) : List (String × String) :=
  params.foldl (fun m kv => setArg m kv.1 kv.2) []

/-- `FunctionParser.parseFunctionCall`
(src/src/services/messageHandler.ts lines 224-325), in source priority
order: the natural-language delete shorthand, the object-form syntax, the
parenthesised syntax with its positional `deleteMessages` special case, else
`null`.  Total by construction: malformed input yields `none`. -/
def parseFunctionCall (content : String) : Option FunctionCall :=
  let trimmed := jsTrim content
  match matchDeleteCommand trimmed with
  | some amount => some { name := "deleteMessages", arguments := [("amount", amount)] }
  | none =>
  match matchObjectForm trimmed with
  | some (functionName, argsString) =>
    some { name := functionName, arguments := foldParams (parseParams argsString) }
  | none =>
  match matchCallForm trimmed with
  | none => none
  | some (functionName, argsString) =>
    if toLowerStr functionName == "deletemessages"
        && (jsSplitComma argsString).length ≤ 2
        && !(jsIncludes argsString ":") then
      match (jsSplitComma argsString).map jsTrim with
      | [amount] =>
        some { name := "deleteMessages", arguments := [("amount", amount)] }
      | [channelId, amount] =>
        some { name := "deleteMessages",
               arguments := [("channelId", channelId), ("amount", amount)] }
      | _ =>
        some { name := functionName, arguments := foldParams (parseParams argsString) }
    else
      some { name := functionName, arguments := foldParams (parseParams argsString) }

end Agentic.FunctionParser

namespace Agentic.FunctionExecutor

open Agentic.AIService (FunctionCall)

/-- One invocation of the moderation service, carrying exactly the
arguments the executor passes (raw, still-untyped argument strings). -/
inductive ServiceCall where
  | kickUser (guildId : String) (userId : Option String) (reason : Option String)
  | banUser (guildId : String) (userId : Option String)
      (reason deleteMessageDays : Option String)
  | muteUser (guildId : String) (userId : Option String)
      (duration reason : Option String)
  | setFilterSettings (guildId authorId : String) (enabled : Option String)
  | warnUser (guildId : String) (userId : Option String) (reason : Option String)
  | createCategory (guildId : String) (name position : Option String)
  | createChannel (guildId name channelType : String)
      (categoryId topic : Option String)
  | deleteChannel (guildId : String) (channelId reason : Option String)
  | deleteMessages (guildId channelId : String) (amount : Nat) (reason : String)
  | createEmbed (guildId channelId : String)
      (title description color footer image thumbnail : Option String)
deriving Repr, DecidableEq

/-- One attempt of `/<@!?(\d+)>/` anchored at the head of `cs`: on success,
the captured digit run. -/
def matchMentionAt (cs : List Char) : Option String :=
  match cs with
  | '<' :: '@' :: rest =>
    let rest :=
      match rest with
      | '!' :: r => r
      | r => r
    match rest with
    | [] => none
    | c :: _ =>
      if c.isDigit then
        match rest.dropWhile Char.isDigit with
        | '>' :: _ => some (String.mk (rest.takeWhile Char.isDigit))
        | _ => none
      else none
  | _ => none

/-- Leftmost search of `/<@!?(\d+)>/` (the regex has no `^` anchor). -/
def findMentionId : List Char → Option String
  | [] => none
  | c :: rest =>
    match matchMentionAt (c :: rest) with
    | some ds => some ds
    | none => findMentionId rest

/-- `userId.replace(/^@+/, '')`: drop the leading run of `@` characters. -/
def dropLeadingAts (s : String) : String :=
  String.mk (s.toList.dropWhile (fun c => c = '@'))

/-- The ambient context of one `handleFunctionCall` invocation: the message's
guild and channel, the author, and the state of the client's guild/member
caches consulted during username resolution. -/
structure ExecEnv where
  guildId : Option String
  authorId : String
  messageChannelId : String
  guildInCache : Bool
  cacheEmpty : Bool
  fetchAllOk : Bool
  cache : List GuildMember
  allMembers : List GuildMember
deriving Repr

/-- The username-resolution body of the `if (userId)` block of
`FunctionExecutor.handleFunctionCall` (src/src/services/discordService.ts
lines 122-169): a mention is reduced to its id; after stripping leading `@`
a non-numeric token is looked up in the member cache (refreshed when empty,
with the fetch failure caught as a resolution error); with the guild absent
from the client cache the token is left as-is. -/
def resolveUserIdArg (env : ExecEnv) (uid : String) : Except String String :=
  match findMentionId uid.toList with
  | some ds => .ok ds
  | none =>
    let uid := dropLeadingAts uid
    if isAllDigits uid then .ok uid
    else if env.guildInCache then
      if env.cacheEmpty && !env.fetchAllOk then
        .error s!"Error: Failed to resolve username {apos}{uid}{apos}."
      else
        let members := if env.cacheEmpty then env.allMembers else env.cache
        match members.find? (memberMatches (toLowerStr uid)) with
        | some m => .ok m.id
        | none => .error s!"Error: Could not find user {apos}{uid}{apos} in this server."
    else .ok uid

/-- The whole userId preamble: absent `userId` is passed through, an empty
string is falsy in JS (`if (userId)`) and skips the block, anything else is
resolved by `resolveUserIdArg`. -/
def resolveUserIdStep (env : ExecEnv) (args : List (String × String)) :
    Except String (Option String) :=
  match lookupArg args "userId" with
  | none => .ok none
  | some uid =>
    if uid = "" then .ok (some uid)
    else (resolveUserIdArg env uid).map some

/-- `result.match(/Successfully deleted (\d+) message/)` anchored at the
head: the count when the pattern starts here. -/
def matchSuccessAt (cs : List Char) : Option Nat := do
  let cs ← stripLit "Successfully deleted ".toList cs
  match cs with
  | [] => none
  | c :: _ =>
    if c.isDigit then
      if (" message".toList).isPrefixOf (cs.dropWhile Char.isDigit) then
        some (digitsToNat (cs.takeWhile Char.isDigit))
      else none
    else none

/-- Leftmost search for `/Successfully deleted (\d+) message/`. -/
def findSuccessCount : List Char → Option Nat
  | [] => none
  | c :: rest =>
    match matchSuccessAt (c :: rest) with
    | some n => some n
    | none => findSuccessCount rest

/-- Template of the chunked-deletion completion reply. -/
def mkBatchDoneMsg (total : Nat) : String :=
  s!"Successfully deleted {total} message(s) from the channel."

/-- Template of the chunked-deletion early-stop reply. -/
def mkPartialMsg (total : Nat) (result : String) : String :=
  s!"Partially completed. Deleted {total} messages. Stopped due to: {result}"

/-- The chunked-deletion loop of the `deletemessages` branch
(src/src/services/discordService.ts lines 281-300).  `svc` is the
moderation service, indexed by the per-execution call counter; the returned
list is the trace of service invocations in order.  The fuel is `chunks - i`
(the loop also stops once `totalDeleted` reaches `maxToDelete`). -/
def delLoop (svc : Nat → ServiceCall → String) (guildId channelId reason : String)
    (maxToDelete : Nat) : Nat → Nat → Nat → String × List ServiceCall
  | 0, total, _ => (mkBatchDoneMsg total, [])
  | fuel + 1, total, i =>
    if total < maxToDelete then
      let batchSize := min 100 (maxToDelete - total)
      let c := ServiceCall.deleteMessages guildId channelId batchSize reason
      let result := svc i c
      match findSuccessCount result.toList with
      | some n =>
        let next := delLoop svc guildId channelId reason maxToDelete fuel (total + n) (i + 1)
        (next.1, c :: next.2)
      | none =>
        if jsIncludes result "Error" then
          (mkPartialMsg total result, [c])
        else
          let next := delLoop svc guildId channelId reason maxToDelete fuel total (i + 1)
          (next.1, c :: next.2)
    else (mkBatchDoneMsg total, [])

/-- The ten action names of the dispatch switch, already lowercased. -/
def knownNames : List String :=
  ["kickuser", "banuser", "muteuser", "filtersettings", "warnuser",
   "createcategory", "createchannel", "deletechannel", "deletemessages",
   "createembed"]

/-- The `switch (name.toLowerCase())` dispatch of
`FunctionExecutor.handleFunctionCall` (src/src/services/discordService.ts
lines 175-330), after guild and userId preflight.  Each branch issues its
service call (recorded in the trace); the `createchannel` and
`deletemessages` branches reproduce the inline validation and, for amounts
above 100, the capped chunking (the progress notice `message.reply` of that
branch is a chat reply, not a platform mutation, and is not traced). -/
def dispatch (env : ExecEnv) (svc : Nat → ServiceCall → String)
    (guildId : String) (userId? : Option String) (call : FunctionCall) :
    String × List ServiceCall :=
  let args := call.arguments
  let n := toLowerStr call.name
  if n = "kickuser" then
    let c := ServiceCall.kickUser guildId userId? (lookupArg args "reason")
    (svc 0 c, [c])
  else if n = "banuser" then
    let c := ServiceCall.banUser guildId userId? (lookupArg args "reason")
      (lookupArg args "deleteMessageDays")
    (svc 0 c, [c])
  else if n = "muteuser" then
    let c := ServiceCall.muteUser guildId userId? (lookupArg args "duration")
      (lookupArg args "reason")
    (svc 0 c, [c])
  else if n = "filtersettings" then
    let c := ServiceCall.setFilterSettings guildId env.authorId (lookupArg args "enabled")
    (svc 0 c, [c])
  else if n = "warnuser" then
    let c := ServiceCall.warnUser guildId userId? (lookupArg args "reason")
    (svc 0 c, [c])
  else if n = "createcategory" then
    let c := ServiceCall.createCategory guildId (lookupArg args "name")
      (lookupArg args "position")
    (svc 0 c, [c])
  else if n = "createchannel" then
    match lookupArg args "name" with
    | none => ("Error: Channel name is required", [])
    | some nm =>
      if nm = "" then ("Error: Channel name is required", [])
      else
        let typeArg := lookupArg args "type"
        let channelType := toLowerStr (jsOr typeArg "text")
        if channelType = "text" || channelType = "voice" || channelType = "announcement" then
          let c := ServiceCall.createChannel guildId (jsTrim nm) channelType
            (lookupArg args "categoryId") (lookupArg args "topic")
          (svc 0 c, [c])
        else
          let shown := (typeArg.getD "undefined")
          (s!"Error: Invalid channel type {apos}{shown}{apos}. Valid types are: text, voice, announcement.", [])
  else if n = "deletechannel" then
    let c := ServiceCall.deleteChannel guildId (lookupArg args "channelId")
      (lookupArg args "reason")
    (svc 0 c, [c])
  else if n = "deletemessages" then
    let channelId := jsOr (lookupArg args "channelId") env.messageChannelId
    match parseIntJS (lookupArg args "amount") with
    | none => ("Error: Amount must be a positive number", [])
    | some amount =>
      if amount ≤ 0 then ("Error: Amount must be a positive number", [])
      else
        let reason := jsOr (lookupArg args "reason") "Requested by user"
        if 100 < amount then
          let maxToDelete := (min amount 1000).toNat
          let chunks := (maxToDelete + 99) / 100
          delLoop svc guildId channelId reason maxToDelete chunks 0 0
        else
          let c := ServiceCall.deleteMessages guildId channelId amount.toNat reason
          (svc 0 c, [c])
  else if n = "createembed" then
    let c := ServiceCall.createEmbed guildId
      (jsOr (lookupArg args "channelId") env.messageChannelId)
      (lookupArg args "title") (lookupArg args "description")
      (lookupArg args "color") (lookupArg args "footer")
      (lookupArg args "image") (lookupArg args "thumbnail")
    (svc 0 c, [c])
  else
    (s!"Error: Unknown function {apos}{call.name}{apos}.", [])

/-- `FunctionExecutor.handleFunctionCall`
(src/src/services/discordService.ts lines 111-331): guild check, userId
resolution preamble, then the dispatch switch.  Returns the reply string and
the trace of moderation-service invocations (empty on every early error and
on the default branch). -/
def handleFunctionCall (call : FunctionCall) (env : ExecEnv)
    (svc : Nat → ServiceCall → String) : String × List ServiceCall :=
  match env.guildId with
  | none => ("Error: This command can only be used in a server.", [])
  | some guildId =>
    match resolveUserIdStep env call.arguments with
    | .error e => (e, [])
    | .ok userId? => dispatch env svc guildId userId? call

/-- The success-reply template of `ModerationService.deleteMessages`
(src/unnamed/part_002 line 584), used by the scenario oracles below. -/
def mkDeleteSuccessMsg (size : Nat) (channelName : String) : String :=
  s!"Successfully deleted {size} message(s) from {apos}{channelName}{apos}."

/-- Scenario oracle: every bulk-delete batch fully succeeds. -/
def svcOk : Nat → ServiceCall → String := fun _ c =>
  match c with
  | .deleteMessages _ _ amount _ => mkDeleteSuccessMsg amount "general"
  | _ => ""

/-- Scenario oracle: the first batch succeeds fully, every later batch
returns the error text `E`. -/
def svcFailAfterFirst (E : String) : Nat → ServiceCall → String := fun i c =>
  if i = 0 then svcOk i c else E

/-- A message context in cached guild "g", channel "chan", empty member
directory. -/
def envC1 : ExecEnv :=
  { guildId := some "g", authorId := "a", messageChannelId := "chan",
    guildInCache := true, cacheEmpty := false, fetchAllOk := true,
    cache := [], allMembers := [] }

/-- A message context whose member cache holds only the member "alice". -/
def envMembers : ExecEnv :=
  { guildId := some "g", authorId := "a", messageChannelId := "chan",
    guildInCache := true, cacheEmpty := false, fetchAllOk := true,
    cache := [⟨"1", "alice", none⟩], allMembers := [] }

end Agentic.FunctionExecutor

namespace Agentic

/-- C2: for every `deleteMessageDays` input, the value passed to the ban
mutation is the input clamped into [0,7] and converted to seconds by
multiplying by 86400; consequently it always lies in [0, 604800], it is the
unclamped `d * 86400` whenever `d` is already in range, and the two spec
examples hold: input -5 yields 0 seconds, input 99 yields 604800 seconds. -/
theorem banUser_clamps_deleteMessageDays (d : Int) :
    banDeleteSeconds d = banClampDays d * 86400 ∧
    0 ≤ banClampDays d ∧ banClampDays d ≤ 7 ∧
    0 ≤ banDeleteSeconds d ∧ banDeleteSeconds d ≤ 604800 ∧
    (0 ≤ d → d ≤ 7 → banDeleteSeconds d = d * 86400) ∧
    banDeleteSeconds (-5) = 0 ∧ banDeleteSeconds 99 = 604800 := by
  unfold banDeleteSeconds banClampDays
  refine ⟨rfl, le_max_left 0 _, max_le (by norm_num) (min_le_left 7 d), ?_, ?_, ?_,
    by decide, by decide⟩
  · positivity
  · have h : max 0 (min 7 d) ≤ 7 := max_le (by norm_num) (min_le_left 7 d)
    linarith
  · intro h0 h7
    have h : max 0 (min 7 d) = d := by
      rw [min_eq_right h7, max_eq_right h0]
    rw [h]

/-- Witness for C2: the in-range case is discharged at `d = 3`. -/
theorem banUser_clamps_deleteMessageDays_witness :
    banDeleteSeconds 3 = 3 * 86400 :=
  (banUser_clamps_deleteMessageDays 3).2.2.2.2.2.1 (by decide) (by decide)

/-- C5: the direct-call parser maps `"delete 42 messages"` to a
`deleteMessages` call with amount `"42"`, maps
`"banUser(userId: \"123\", reason: \"spam\")"` to a `banUser` call with the
quoted values stripped of their quotes, and maps non-matching text such as
`"hello there"` to `none`.  The parser is a total Lean function, so it
cannot raise on any input. -/
theorem parseFunctionCall_examples :
    FunctionParser.parseFunctionCall "delete 42 messages" =
      some { name := "deleteMessages", arguments := [("amount", "42")] } ∧
    FunctionParser.parseFunctionCall "banUser(userId: \"123\", reason: \"spam\")" =
      some { name := "banUser", arguments := [("userId", "123"), ("reason", "spam")] } ∧
    FunctionParser.parseFunctionCall "hello there" = none := by
  refine ⟨by decide, by decide, by decide⟩

/-- C9: `detectModerationCommand` (the spec's `isAdministrativeIntent`) is a
pure function of the text that holds exactly when some keyword of the fixed
list is contained, case-insensitively, as a substring of the text; in
particular both "I want to BAN someone" and "banana split" return true. -/
theorem detectModerationCommand_spec :
    (∀ query : String, detectModerationCommand query = true ↔
      ∃ kw ∈ moderationKeywords, kw.toList <:+: (toLowerStr query).toList) ∧
    detectModerationCommand "I want to BAN someone" = true ∧
    detectModerationCommand "banana split" = true := by
  refine ⟨?_, by decide, by decide⟩
  intro query
  simp [detectModerationCommand, jsIncludes, List.any_eq_true]

/-- Witness for C9's characterisation: instantiated at "banana split", whose
match is witnessed by the keyword "ban". -/
theorem detectModerationCommand_spec_witness :
    ∃ kw ∈ moderationKeywords, kw.toList <:+: (toLowerStr "banana split").toList :=
  (detectModerationCommand_spec.1 "banana split").mp (by decide)

/-- Helper: a string equality test absorbs into substring containment. -/
theorem beq_or_jsIncludes (a b : String) :
    ((a == b) || jsIncludes a b) = jsIncludes a b := by
  cases h : a == b
  · simp
  · have hab : a = b := by simpa using h
    subst hab
    simp [jsIncludes, List.infix_refl]

/-- Helper: the source's four-clause member predicate agrees pointwise with
the spec's two-clause (containment only) description. -/
theorem memberMatches_eq_spec (t : String) (m : GuildMember) :
    memberMatches (toLowerStr t) m = specNameMatches t m := by
  rcases m with ⟨mid, u, nick⟩
  cases nick with
  | none =>
    show ((toLowerStr u == toLowerStr t) || false ||
        jsIncludes (toLowerStr u) (toLowerStr t) || false) =
      (jsIncludes (toLowerStr u) (toLowerStr t) || false)
    rw [Bool.or_false, Bool.or_false, Bool.or_false, beq_or_jsIncludes]
  | some n =>
    show ((toLowerStr u == toLowerStr t) || (toLowerStr n == toLowerStr t) ||
        jsIncludes (toLowerStr u) (toLowerStr t) || jsIncludes (toLowerStr n) (toLowerStr t)) =
      (jsIncludes (toLowerStr u) (toLowerStr t) || jsIncludes (toLowerStr n) (toLowerStr t))
    cases hu : (toLowerStr u == toLowerStr t)
    · cases hn : (toLowerStr n == toLowerStr t)
      · simp
      · have h : toLowerStr n = toLowerStr t := by simpa using hn
        simp [h, jsIncludes, List.infix_refl]
    · have h : toLowerStr u = toLowerStr t := by simpa using hu
      simp [h, jsIncludes, List.infix_refl]

/-- Helper: `find?` returns the head of the filtered list (first match in
iteration order, no disambiguation). -/
theorem find?_eq_head_filter {α : Type} (p : α → Bool) (l : List α) :
    l.find? p = (l.filter p).head? := by
  induction l with
  | nil => rfl
  | cons x xs ih =>
    cases h : p x
    · rw [List.find?_cons, List.filter_cons, h]
      simp only [cond_false, if_neg Bool.false_ne_true, ih]
    · rw [List.find?_cons, List.filter_cons, h]
      simp

/-- C8: reference resolution.  After stripping the mention wrapper
characters, an all-digit token short-circuits to the fetch-by-id oracle
(no name matching); otherwise the member directory (the cache, refreshed
when empty) is searched with the spec's criterion — case-insensitive
equality-or-substring containment against username or nickname — and the
first match in iteration order is returned (`find?` is the head of the
filtered directory); no match yields `none` (not-found). -/
theorem resolveUser_spec (cache allMembers : List GuildMember)
    (fetchById : String → Option GuildMember) (tok : String) :
    resolveUser cache allMembers fetchById tok =
      (if isAllDigits (stripMentionChars tok) then
        fetchById (stripMentionChars tok)
      else
        (if cache.isEmpty then allMembers else cache).find?
          (specNameMatches (stripMentionChars tok))) ∧
    (∀ (t : String) (m : GuildMember), memberMatches (toLowerStr t) m = specNameMatches t m) ∧
    (∀ (l : List GuildMember) (t : String),
      l.find? (specNameMatches t) = (l.filter (specNameMatches t)).head?) := by
  refine ⟨?_, memberMatches_eq_spec, fun l t => find?_eq_head_filter _ l⟩
  unfold resolveUser
  cases h : isAllDigits (stripMentionChars tok)
  · have hfun : memberMatches (toLowerStr (stripMentionChars tok)) =
        specNameMatches (stripMentionChars tok) :=
      funext (fun m => memberMatches_eq_spec _ m)
    simp only [h, Bool.false_eq_true, if_false, hfun]
  · simp only [h, if_true]

end Agentic

namespace Agentic.AIService

/-- C6: for every query text, when the model exchange fails in any way the
error is not propagated: the returned response carries the configured
AI-failure message as its content (and no function call), so the caller
always receives a reply. -/
theorem generateResponse_absorbs_failure (aiFailureMsg : String)
    (parseJson : String → Option (List (String × String)))
    (exchange : String → Except String ChatCompletionResponse)
    (query errMsg : String)
    (hfail : exchange query = .error errMsg) :
    generateResponse aiFailureMsg parseJson exchange query =
      { content := aiFailureMsg, functionCall := none } := by
  unfold generateResponse
  rw [hfail]

/-- Witness for C6: a concrete always-failing exchange. -/
theorem generateResponse_absorbs_failure_witness :
    generateResponse "I am sorry, my circuits are fried."
        (fun _ => none) (fun _ => .error "ECONNRESET") "hello" =
      { content := "I am sorry, my circuits are fried.", functionCall := none } :=
  generateResponse_absorbs_failure _ _ _ "hello" "ECONNRESET" rfl

end Agentic.AIService


namespace Agentic.FilterManager

/-- Helper: reading back the warning entry just written. -/
theorem getWarning_setWarning (ws : List (String × WarningEntry)) (uid : String)
    (e : WarningEntry) : getWarning (setWarning ws uid e) uid = some e := by
  induction ws with
  | nil => simp [setWarning, getWarning]
  | cons p ps ih =>
    by_cases h : p.1 == uid
    · simp [setWarning, getWarning, h]
    · simp only [setWarning, if_neg h]
      simpa [getWarning, List.find?_cons, h] using ih

/-- Helper: a warn with an existing record, inside the reset window and
below the threshold, increments the count and reports it. -/
theorem warnUser_below (settings : FilterSettings) (uid reason : String)
    (env : WarnEnv) (e : WarningEntry)
    (hg : env.guildFound = true) (hm : env.memberFound = true)
    (hfind : getWarning settings.warnings uid = some e)
    (hreset : env.now - e.lastWarning < WARNING_RESET_TIME)
    (hlt : e.count + 1 < WARNING_THRESHOLD) :
    warnUser (some settings) uid reason env =
      (some { settings with warnings := setWarning settings.warnings uid ⟨e.count + 1, env.now⟩ },
       mkWarnMsg env.memberName reason (e.count + 1)) := by
  have h1 : ¬ (WARNING_RESET_TIME ≤ env.now - e.lastWarning) := Nat.not_le.mpr hreset
  have h2 : ¬ (WARNING_THRESHOLD ≤ e.count + 1) := Nat.not_le.mpr hlt
  simp [warnUser, hg, hm, hfind, h1, h2]

/-- Helper: a warn with no existing record creates one with count 0 and
increments it to 1 (the reset test compares the clock with itself). -/
theorem warnUser_fresh (settings : FilterSettings) (uid reason : String)
    (env : WarnEnv)
    (hg : env.guildFound = true) (hm : env.memberFound = true)
    (hfind : getWarning settings.warnings uid = none) :
    warnUser (some settings) uid reason env =
      (some { settings with warnings := setWarning settings.warnings uid ⟨1, env.now⟩ },
       mkWarnMsg env.memberName reason 1) := by
  simp [warnUser, hg, hm, hfind, Nat.sub_self, WARNING_RESET_TIME, WARNING_THRESHOLD]

/-- Helper: a warn that reaches the threshold with a succeeding timeout
escalates and resets the stored count to 0. -/
theorem warnUser_escalates (settings : FilterSettings) (uid reason : String)
    (env : WarnEnv) (e : WarningEntry)
    (hg : env.guildFound = true) (hm : env.memberFound = true)
    (hfind : getWarning settings.warnings uid = some e)
    (hreset : env.now - e.lastWarning < WARNING_RESET_TIME)
    (hth : WARNING_THRESHOLD ≤ e.count + 1)
    (hok : env.timeoutOk = true) :
    warnUser (some settings) uid reason env =
      (some { settings with warnings := setWarning settings.warnings uid ⟨0, env.now⟩ },
       mkEscalationMsg env.memberName) := by
  have h1 : ¬ (WARNING_RESET_TIME ≤ env.now - e.lastWarning) := Nat.not_le.mpr hreset
  simp [warnUser, hg, hm, hfind, h1, hth, hok]

/-- Helper: a warn that reaches the threshold with a FAILING timeout keeps
the incremented count and reports the recorded-but-not-timed-out message. -/
theorem warnUser_escalation_fails (settings : FilterSettings) (uid reason : String)
    (env : WarnEnv) (e : WarningEntry)
    (hg : env.guildFound = true) (hm : env.memberFound = true)
    (hfind : getWarning settings.warnings uid = some e)
    (hreset : env.now - e.lastWarning < WARNING_RESET_TIME)
    (hth : WARNING_THRESHOLD ≤ e.count + 1)
    (hok : env.timeoutOk = false) :
    warnUser (some settings) uid reason env =
      (some { settings with warnings := setWarning settings.warnings uid ⟨e.count + 1, env.now⟩ },
       mkTimeoutFailMsg env.memberName) := by
  have h1 : ¬ (WARNING_RESET_TIME ≤ env.now - e.lastWarning) := Nat.not_le.mpr hreset
  simp [warnUser, hg, hm, hfind, h1, hth, hok]

/-- Helper: a warn after the reset window has elapsed resets the count to 0
before incrementing, so it reports count 1. -/
theorem warnUser_after_reset (settings : FilterSettings) (uid reason : String)
    (env : WarnEnv) (e : WarningEntry)
    (hg : env.guildFound = true) (hm : env.memberFound = true)
    (hfind : getWarning settings.warnings uid = some e)
    (hreset : WARNING_RESET_TIME ≤ env.now - e.lastWarning) :
    warnUser (some settings) uid reason env =
      (some { settings with warnings := setWarning settings.warnings uid ⟨1, env.now⟩ },
       mkWarnMsg env.memberName reason 1) := by
  simp [warnUser, hg, hm, hfind, hreset, WARNING_THRESHOLD]

/-- C3: for a (guild,user) pair starting with no warning record, three warns
within the reset window report counts 1/3, 2/3 and then — the stored count
having reached the threshold 3 — the escalation (10-minute timeout) message,
the stored count being reset to 0; a fourth warn within the window reports
count 1/3 again; and a warn issued after the reset window has elapsed since
the previous warning also reports count 1/3 (reset applied). -/
theorem warn_three_times_escalates (s0 : FilterSettings) (uid reason nm : String)
    (t1 t2 t3 t4 t5 : Nat)
    (hfresh : getWarning s0.warnings uid = none)
    (h21 : t2 - t1 < WARNING_RESET_TIME)
    (h32 : t3 - t2 < WARNING_RESET_TIME)
    (h43 : t4 - t3 < WARNING_RESET_TIME)
    (h51 : WARNING_RESET_TIME ≤ t5 - t1) :
    warnUser (some s0) uid reason (mkEnv t1 nm true) =
      (some { s0 with warnings := setWarning s0.warnings uid ⟨1, t1⟩ },
       mkWarnMsg nm reason 1) ∧
    warnUser (some { s0 with warnings := setWarning s0.warnings uid ⟨1, t1⟩ })
        uid reason (mkEnv t2 nm true) =
      (some { s0 with warnings := setWarning (setWarning s0.warnings uid ⟨1, t1⟩) uid ⟨2, t2⟩ },
       mkWarnMsg nm reason 2) ∧
    warnUser (some { s0 with warnings := setWarning (setWarning s0.warnings uid ⟨1, t1⟩) uid ⟨2, t2⟩ })
        uid reason (mkEnv t3 nm true) =
      (some { s0 with warnings := setWarning (setWarning (setWarning s0.warnings uid ⟨1, t1⟩) uid ⟨2, t2⟩) uid ⟨0, t3⟩ },
       mkEscalationMsg nm) ∧
    warnUser (some { s0 with warnings := setWarning (setWarning (setWarning s0.warnings uid ⟨1, t1⟩) uid ⟨2, t2⟩) uid ⟨0, t3⟩ })
        uid reason (mkEnv t4 nm true) =
      (some { s0 with warnings := setWarning (setWarning (setWarning (setWarning s0.warnings uid ⟨1, t1⟩) uid ⟨2, t2⟩) uid ⟨0, t3⟩) uid ⟨1, t4⟩ },
       mkWarnMsg nm reason 1) ∧
    warnUser (some { s0 with warnings := setWarning s0.warnings uid ⟨1, t1⟩ })
        uid reason (mkEnv t5 nm true) =
      (some { s0 with warnings := setWarning (setWarning s0.warnings uid ⟨1, t1⟩) uid ⟨1, t5⟩ },
       mkWarnMsg nm reason 1) := by
  refine ⟨?_, ?_, ?_, ?_, ?_⟩
  · exact warnUser_fresh s0 uid reason (mkEnv t1 nm true) rfl rfl hfresh
  · exact warnUser_below _ uid reason (mkEnv t2 nm true) ⟨1, t1⟩ rfl rfl
      (getWarning_setWarning _ _ _) h21 (by show (1:Nat) + 1 < 3; decide)
  · exact warnUser_escalates _ uid reason (mkEnv t3 nm true) ⟨2, t2⟩ rfl rfl
      (getWarning_setWarning _ _ _) h32 (by show (3:Nat) ≤ 2 + 1; decide) rfl
  · exact warnUser_below _ uid reason (mkEnv t4 nm true) ⟨0, t3⟩ rfl rfl
      (getWarning_setWarning _ _ _) h43 (by show (0:Nat) + 1 < 3; decide)
  · exact warnUser_after_reset _ uid reason (mkEnv t5 nm true) ⟨1, t1⟩ rfl rfl
      (getWarning_setWarning _ _ _) h51

/-- Witness for C3: the escalating third call at concrete times 0, 1, 2. -/
theorem warn_three_times_escalates_witness :
    warnUser (some { enabled := true, warnings := setWarning (setWarning ([] : List (String × WarningEntry)) "u" ⟨1, 0⟩) "u" ⟨2, 1⟩ }) "u" "spam" (mkEnv 2 "bob" true) =
      (some { enabled := true, warnings := setWarning (setWarning (setWarning ([] : List (String × WarningEntry)) "u" ⟨1, 0⟩) "u" ⟨2, 1⟩) "u" ⟨0, 2⟩ },
       mkEscalationMsg "bob") :=
  (warn_three_times_escalates ⟨true, []⟩ "u" "spam" "bob" 0 1 2 3 WARNING_RESET_TIME
    rfl (by decide) (by decide) (by decide) (by decide)).2.2.1

/-- C7 counterexample: for a guild that has no FilterSettings record at all,
warn records nothing and returns the settings-not-found error — a
(guild,user) pair with no prior record for which warn does NOT succeed. -/
theorem warn_missing_settings_counterexample :
    warnUser none "42" "spam" (mkEnv 0 "bob" true) =
      (none, "Error: Server settings not found.") ∧
    warnUser none "42" "spam" (mkEnv 0 "bob" true) ≠
      (none, mkWarnMsg "bob" "spam" 1) :=
  ⟨rfl, by decide⟩

/-- C7 amended: provided the guild's settings record exists (and the guild
and member lookups succeed), the warn transition loads or creates the
per-user record with count 0, so warn succeeds in recording a warning even
for a (guild,user) pair with no prior warning record: the stored count
becomes 1 and the reply reports warning 1/3. -/
theorem warn_fresh_pair_succeeds (settings : FilterSettings)
    (uid reason nm : String) (t : Nat)
    (hfind : getWarning settings.warnings uid = none) :
    warnUser (some settings) uid reason (mkEnv t nm true) =
      (some { settings with warnings := setWarning settings.warnings uid ⟨1, t⟩ },
       mkWarnMsg nm reason 1) ∧
    getWarning (setWarning settings.warnings uid ⟨1, t⟩) uid = some ⟨1, t⟩ :=
  ⟨warnUser_fresh settings uid reason (mkEnv t nm true) rfl rfl hfind,
   getWarning_setWarning _ _ _⟩

/-- Witness for C7's amended claim: a guild with settings but no warning
record for user "u". -/
theorem warn_fresh_pair_succeeds_witness :
    warnUser (some { enabled := false, warnings := [] }) "u" "spam" (mkEnv 7 "bob" true) =
      (some { enabled := false, warnings := setWarning ([] : List (String × WarningEntry)) "u" ⟨1, 7⟩ },
       mkWarnMsg "bob" "spam" 1) :=
  (warn_fresh_pair_succeeds ⟨false, []⟩ "u" "spam" "bob" 7 rfl).1

/-- C10: when the escalation timeout on the threshold-reaching warning
fails, the reply reports the warning as recorded but the stored count is NOT
reset — it stays at the threshold value 3; every subsequent warn within the
reset window then increments the count past the threshold and re-attempts
the timeout: failing again it keeps counting up (here to 4), succeeding it
escalates and resets the count to 0. -/
theorem warn_timeout_failure_keeps_count (s : FilterSettings)
    (uid reason nm : String) (t3 t4 lw : Nat)
    (hfind : getWarning s.warnings uid = some ⟨2, lw⟩)
    (hreset : t3 - lw < WARNING_RESET_TIME)
    (hreset4 : t4 - t3 < WARNING_RESET_TIME) :
    warnUser (some s) uid reason (mkEnv t3 nm false) =
      (some { s with warnings := setWarning s.warnings uid ⟨3, t3⟩ },
       mkTimeoutFailMsg nm) ∧
    getWarning (setWarning s.warnings uid ⟨3, t3⟩) uid = some ⟨3, t3⟩ ∧
    warnUser (some { s with warnings := setWarning s.warnings uid ⟨3, t3⟩ })
        uid reason (mkEnv t4 nm false) =
      (some { s with warnings := setWarning (setWarning s.warnings uid ⟨3, t3⟩) uid ⟨4, t4⟩ },
       mkTimeoutFailMsg nm) ∧
    warnUser (some { s with warnings := setWarning s.warnings uid ⟨3, t3⟩ })
        uid reason (mkEnv t4 nm true) =
      (some { s with warnings := setWarning (setWarning s.warnings uid ⟨3, t3⟩) uid ⟨0, t4⟩ },
       mkEscalationMsg nm) ∧
    (∀ (s2 : FilterSettings) (c lw2 t : Nat),
      getWarning s2.warnings uid = some ⟨c, lw2⟩ → 2 ≤ c →
      t - lw2 < WARNING_RESET_TIME →
      warnUser (some s2) uid reason (mkEnv t nm false) =
        (some { s2 with warnings := setWarning s2.warnings uid ⟨c + 1, t⟩ },
         mkTimeoutFailMsg nm)) := by
  refine ⟨?_, getWarning_setWarning _ _ _, ?_, ?_, ?_⟩
  · exact warnUser_escalation_fails s uid reason (mkEnv t3 nm false) ⟨2, lw⟩
      rfl rfl hfind hreset (by show (3:Nat) ≤ 2 + 1; decide) rfl
  · exact warnUser_escalation_fails _ uid reason (mkEnv t4 nm false) ⟨3, t3⟩
      rfl rfl (getWarning_setWarning _ _ _) hreset4 (by show (3:Nat) ≤ 3 + 1; decide) rfl
  · exact warnUser_escalates _ uid reason (mkEnv t4 nm true) ⟨3, t3⟩
      rfl rfl (getWarning_setWarning _ _ _) hreset4 (by show (3:Nat) ≤ 3 + 1; decide) rfl
  · intro s2 c lw2 t hf hc hr
    exact warnUser_escalation_fails s2 uid reason (mkEnv t nm false) ⟨c, lw2⟩
      rfl rfl hf hr (by show (3:Nat) ≤ c + 1; omega) rfl

/-- Witness for C10: concrete third warn at time 2 with a failing timeout,
starting from a stored count of 2. -/
theorem warn_timeout_failure_keeps_count_witness :
    warnUser (some { enabled := true, warnings := [("u", (⟨2, 1⟩ : WarningEntry))] }) "u" "spam" (mkEnv 2 "bob" false) =
      (some { enabled := true, warnings := setWarning [("u", (⟨2, 1⟩ : WarningEntry))] "u" ⟨3, 2⟩ },
       mkTimeoutFailMsg "bob") :=
  (warn_timeout_failure_keeps_count ⟨true, [("u", ⟨2, 1⟩)]⟩ "u" "spam" "bob" 2 3 1
    rfl (by decide) (by decide)).1

end Agentic.FilterManager

namespace Agentic.FunctionExecutor

open Agentic.AIService (FunctionCall)

/-- Helper: one loop iteration whose service reply parses as a success
count `n` recurses with the total increased by `n`. -/
theorem delLoop_step_ok (svc : Nat → ServiceCall → String) (gid ch r : String)
    (m fuel total i n : Nat)
    (hlt : total < m)
    (hres : findSuccessCount
        (svc i (ServiceCall.deleteMessages gid ch (min 100 (m - total)) r)).toList =
      some n) :
    delLoop svc gid ch r m (fuel + 1) total i =
      ((delLoop svc gid ch r m fuel (total + n) (i + 1)).1,
       ServiceCall.deleteMessages gid ch (min 100 (m - total)) r ::
         (delLoop svc gid ch r m fuel (total + n) (i + 1)).2) := by
  simp only [delLoop, if_pos hlt, hres]

/-- Helper: one loop iteration whose service reply does not parse as a
success but contains "Error" stops with the partial-completion reply. -/
theorem delLoop_step_error (svc : Nat → ServiceCall → String) (gid ch r : String)
    (m fuel total i : Nat) (E : String)
    (hlt : total < m)
    (hres : svc i (ServiceCall.deleteMessages gid ch (min 100 (m - total)) r) = E)
    (hE1 : findSuccessCount E.toList = none)
    (hE2 : jsIncludes E "Error" = true) :
    delLoop svc gid ch r m (fuel + 1) total i =
      (mkPartialMsg total E,
       [ServiceCall.deleteMessages gid ch (min 100 (m - total)) r]) := by
  simp only [delLoop, if_pos hlt, hres, hE1, hE2, if_true]

/-- C1: a `deleteMessages` call with amount 250 is serviced as exactly 3
sequential batches of sizes 100, 100, 50 when every batch succeeds; if the
2nd batch's mutation fails (any reply that does not parse as a success and
contains "Error"), the returned string reports a total equal to the
successfully-deleted count of batch 1 only with the batch reply's error text
appended, and no further batch is attempted; amounts above 100 are capped at
the overall ceiling 1000 and split into batches of at most 100 (amount 5000
yields ten batches of 100). -/
theorem deleteMessages_250_batches (E : String)
    (hE1 : findSuccessCount E.toList = none)
    (hE2 : jsIncludes E "Error" = true) :
    handleFunctionCall { name := "deleteMessages", arguments := [("amount", "250")] }
        envC1 svcOk =
      ("Successfully deleted 250 message(s) from the channel.",
       [ServiceCall.deleteMessages "g" "chan" 100 "Requested by user",
        ServiceCall.deleteMessages "g" "chan" 100 "Requested by user",
        ServiceCall.deleteMessages "g" "chan" 50 "Requested by user"]) ∧
    handleFunctionCall { name := "deleteMessages", arguments := [("amount", "250")] }
        envC1 (svcFailAfterFirst E) =
      (mkPartialMsg 100 E,
       [ServiceCall.deleteMessages "g" "chan" 100 "Requested by user",
        ServiceCall.deleteMessages "g" "chan" 100 "Requested by user"]) ∧
    handleFunctionCall { name := "deleteMessages", arguments := [("amount", "5000")] }
        envC1 svcOk =
      ("Successfully deleted 1000 message(s) from the channel.",
       List.replicate 10 (ServiceCall.deleteMessages "g" "chan" 100 "Requested by user")) := by
  refine ⟨by decide, ?_, by decide⟩
  have hstep : handleFunctionCall
      { name := "deleteMessages", arguments := [("amount", "250")] } envC1
      (svcFailAfterFirst E) =
      delLoop (svcFailAfterFirst E) "g" "chan" "Requested by user" 250 3 0 0 := rfl
  have hone : delLoop (svcFailAfterFirst E) "g" "chan" "Requested by user" 250 3 0 0 =
      ((delLoop (svcFailAfterFirst E) "g" "chan" "Requested by user" 250 2 100 1).1,
       ServiceCall.deleteMessages "g" "chan" 100 "Requested by user" ::
         (delLoop (svcFailAfterFirst E) "g" "chan" "Requested by user" 250 2 100 1).2) :=
    delLoop_step_ok (svcFailAfterFirst E) "g" "chan" "Requested by user" 250 2 0 0 100
      (by decide) rfl
  have htwo : delLoop (svcFailAfterFirst E) "g" "chan" "Requested by user" 250 2 100 1 =
      (mkPartialMsg 100 E,
       [ServiceCall.deleteMessages "g" "chan" 100 "Requested by user"]) :=
    delLoop_step_error (svcFailAfterFirst E) "g" "chan" "Requested by user" 250 1 100 1 E
      (by decide) rfl hE1 hE2
  rw [hstep, hone, htwo]

/-- Witness for C1: the concrete failing reply "Error: Server not found."
for the 2nd batch. -/
theorem deleteMessages_250_batches_witness :
    handleFunctionCall { name := "deleteMessages", arguments := [("amount", "250")] }
        envC1 (svcFailAfterFirst "Error: Server not found.") =
      (mkPartialMsg 100 "Error: Server not found.",
       [ServiceCall.deleteMessages "g" "chan" 100 "Requested by user",
        ServiceCall.deleteMessages "g" "chan" 100 "Requested by user"]) :=
  (deleteMessages_250_batches "Error: Server not found." (by decide) (by decide)).2.1

/-- C4 counterexample: a StructuredCall whose name matches no catalog action
but which carries an unresolvable `userId` argument returns the
user-resolution error, not the unknown-function error: the userId preamble
runs (and can exit) before the dispatch switch ever sees the name.  (No
service call is made either way.) -/
theorem unknown_name_not_always_unknown_error :
    handleFunctionCall { name := "frobnicate", arguments := [("userId", "bob")] }
        envMembers (fun _ _ => "") =
      ("Error: Could not find user " ++ apos ++ "bob" ++ apos ++ " in this server.",
       []) ∧
    (handleFunctionCall { name := "frobnicate", arguments := [("userId", "bob")] }
        envMembers (fun _ _ => "")).1 ≠
      "Error: Unknown function " ++ apos ++ "frobnicate" ++ apos ++ "." :=
  ⟨by decide, by decide⟩

/-- C4 amended: for every StructuredCall whose name (compared
case-insensitively) matches none of the ten catalog actions, execution
returns `"Error: Unknown function '<name>'."` with an empty service-call
trace (no platform mutation, no state change) — provided the guild is known
and the userId preamble succeeds; a call whose `userId` argument fails to
resolve instead returns the user-resolution error first (still with no
service call). -/
theorem unknown_name_returns_error (call : FunctionCall) (env : ExecEnv)
    (svc : Nat → ServiceCall → String) (gid : String) (u : Option String)
    (hg : env.guildId = some gid)
    (hu : resolveUserIdStep env call.arguments = .ok u)
    (hn : toLowerStr call.name ∉ knownNames) :
    handleFunctionCall call env svc =
      (s!"Error: Unknown function {apos}{call.name}{apos}.", []) := by
  simp only [knownNames, List.mem_cons, List.not_mem_nil, or_false, not_or] at hn
  obtain ⟨h1, h2, h3, h4, h5, h6, h7, h8, h9, h10⟩ := hn
  unfold handleFunctionCall
  rw [hg, hu]
  simp only [dispatch, h1, h2, h3, h4, h5, h6, h7, h8, h9, h10, if_false]

/-- Witness for C4's amended claim: the unknown name "frobnicate" with no
userId argument. -/
theorem unknown_name_returns_error_witness :
    handleFunctionCall { name := "frobnicate", arguments := [] } envC1 (fun _ _ => "") =
      ("Error: Unknown function " ++ apos ++ "frobnicate" ++ apos ++ ".", []) := by
  have h := unknown_name_returns_error { name := "frobnicate", arguments := [] }
    envC1 (fun _ _ => "") "g" none rfl rfl (by decide)
  exact h

end Agentic.FunctionExecutor
